import Mathlib

/-
Verification of the first-party behaviour of the Aware Discord bot:
the Staff role-toggle command, the ready-event listener, and the
Component base class.  Each definition is a shallow embedding of the
corresponding JavaScript source (src/unnamed/part_010,
src/src/modules/extensions/Component.js).
-/

set_option maxHeartbeats 1000000

namespace Aware

/-- A platform role as returned by `message.guild.roles.fetch`: its
identifier and display name are the only fields the command reads. -/
structure Role where
  id : String
  name : String
  deriving DecidableEq, Repr

/-- A guild member as the Staff command sees it: `member.user.tag` and the
ids in `member.roles.cache` (the set of roles currently held). -/
structure GuildMember where
  tag : String
  roleIds : List String
  deriving DecidableEq, Repr

/-- The cast argument `member` after the framework applied
`Argument.union('member', 'string')`: a resolved guild member, the raw
string fallback, or null when nothing could be cast. -/
inductive MemberArg where
  | nullMember : MemberArg
  | member : GuildMember → MemberArg
  | str : String → MemberArg
  deriving DecidableEq, Repr

/-- JavaScript truthiness of the `member` argument, as tested by
`if (!args.member)`: null is falsy, an object is truthy, and a string is
truthy iff it is non-empty. -/
def MemberArg.truthy : MemberArg → Bool
  | .nullMember => false
  | .member _ => true
  | .str s => s != ""

/-- JavaScript truthiness of the `getRole` lookup result, as tested by
`if (!data)`: null/undefined and the empty string are falsy. -/
def dataTruthy : Option String → Bool
  | Option.none => false
  | Option.some s => s != ""

/-- The raw behaviour of `message.guild.roles.fetch(id)` for this
invocation: resolve to a role, resolve to null (id unknown to the
platform), or reject with a platform/network error. -/
inductive FetchResult where
  | ok : Role → FetchResult
  | null : FetchResult
  | err : FetchResult
  deriving DecidableEq, Repr

/-- The environment of one `Staff.exec` invocation: the cast argument,
the role binding stored for this guild under the key "staff" (the result
of `getRole`), the platform's behaviour for the role fetch, and whether
the role add / role remove platform calls reject. -/
structure ExecEnv where
  member : MemberArg
  binding : Option String
  fetch : FetchResult
  addThrows : Bool
  removeThrows : Bool
  deriving DecidableEq, Repr

/-- An observable effect of one `Staff.exec` invocation: a reply sent via
`message.util.send`, or a role-membership mutation on the target member
(tag of the member, id of the role). -/
inductive Effect where
  | reply : String → Effect
  | removeRole : String → String → Effect
  | addRole : String → String → Effect
  deriving DecidableEq, Repr

/-- A JavaScript exception escaping first-party code. -/
inductive JsError where
  | typeError : JsError
  | platformError : JsError
  deriving DecidableEq, Repr

/-- The result of one invocation: either it ran to completion with a
trace of effects, or an exception escaped `exec` after the recorded
effects had already happened. -/
inductive Outcome where
  | done : List Effect → Outcome
  | thrown : List Effect → JsError → Outcome
  deriving DecidableEq, Repr

/-- Reply sent when the member argument is falsy. -/
def validUserMsg : String := "Please provide a valid user."

/-- Reply sent when the guild has no (truthy) role binding for "staff". -/
def notSetupMsg : String :=
  "Staff Role is not setupped in this server!Try `.rolesetup staff <role>"

/-- Reply sent when the bound role id does not resolve to a role. -/
def notPresentMsg : String := "Staff Role is not present in this server!"

/-- The removal confirmation, with the role name and the member tag
interpolated exactly as in the source template literal. -/
def removedMsg (roleName tag : String) : String :=
  "Removed **" ++ roleName ++ "** role from **" ++ tag ++ "**"

/-- The addition confirmation, with the role name and the member tag
interpolated exactly as in the source template literal. -/
def addedMsg (roleName tag : String) : String :=
  "Added **" ++ roleName ++ "** role to **" ++ tag ++ "**"

/-- Shallow embedding of `Staff.exec` (src/unnamed/part_010).  The body
follows the source line by line: `getRole` is read first, then the three
guards run in order (member truthy, data truthy, fetched role non-null —
the fetch carries `.catch(() => null)`, so a rejected fetch is coerced to
null).  On the main path, when the argument is a string rather than a
member object, `args.member.roles` is undefined and `.cache` on it raises
a TypeError before any mutation; when it is a member, the role is removed
or added according to current membership, and the matching confirmation
is sent.  A rejected add/remove call is an uncaught platform error with
no mutation recorded. -/
def staffExec (env : ExecEnv) : Outcome :=
  if !env.member.truthy then .done [.reply validUserMsg]
  else if !dataTruthy env.binding then .done [.reply notSetupMsg]
  else
    let role : Option Role :=
      match env.fetch with
      | .ok r => Option.some r
      | .null => Option.none
      | .err => Option.none
    match role with
    | Option.none => .done [.reply notPresentMsg]
    | Option.some r =>
      match env.member with
      | .member m =>
        if m.roleIds.contains r.id then
          if env.removeThrows then .thrown [] .platformError
          else .done [.removeRole m.tag r.id, .reply (removedMsg r.name m.tag)]
        else
          if env.addThrows then .thrown [] .platformError
          else .done [.addRole m.tag r.id, .reply (addedMsg r.name m.tag)]
      | _ => .thrown [] .typeError

/-- Whether an effect is a role-membership mutation. -/
def Effect.isMutation : Effect → Bool
  | .removeRole _ _ => true
  | .addRole _ _ => true
  | .reply _ => false

/-- The effects recorded by an outcome. -/
def Outcome.effects : Outcome → List Effect
  | .done es => es
  | .thrown es _ => es

/-- Number of role-membership mutations in an outcome. -/
def mutationCount (o : Outcome) : Nat :=
  (o.effects.filter Effect.isMutation).length

/-- Whether the outcome contains a role addition. -/
def hasAdd (o : Outcome) : Bool :=
  o.effects.any fun e => match e with | .addRole _ _ => true | _ => false

/-- Whether the outcome contains a role removal. -/
def hasRemove (o : Outcome) : Bool :=
  o.effects.any fun e => match e with | .removeRole _ _ => true | _ => false

/-- Precondition (a): the argument resolved to an actual guild member. -/
def memberResolved (env : ExecEnv) : Bool :=
  match env.member with | .member _ => true | _ => false

/-- Precondition (b): a truthy role binding is stored for this guild. -/
def bindingTruthy (env : ExecEnv) : Bool := dataTruthy env.binding

/-- Precondition (c): the bound role id resolves to an existing role. -/
def roleResolves (env : ExecEnv) : Bool :=
  match env.fetch with | .ok _ => true | _ => false

/-- An `AkairoError` as first-party code constructs it:
`new AkairoError(key, ...args)`; the Component base class passes the key
"NOT_IMPLEMENTED" and the positional arguments `this.constructor.name`
and "exec". -/
structure AkairoError where
  key : String
  args : List String
  deriving DecidableEq, Repr

/-- An interaction handed to a component handler (button, select menu or
modal submit); only its identity matters to this development. -/
structure Interaction where
  interactionId : String
  deriving DecidableEq, Repr

/-- A concrete subclass of the `Component` base class
(src/src/modules/extensions/Component.js): its runtime class name
(`this.constructor.name`), the two configuration flags copied from the
constructor options, and its `exec` override when the subclass declares
one (`Option.none` models a subclass that does not override `exec`). -/
structure ComponentClass where
  name : String
  enabled : Bool
  disableAfterUse : Bool
  execOverride : Option (Interaction → Except AkairoError Unit)

/-- Shallow embedding of JavaScript method dispatch for `exec` on a
component instance: a subclass override runs when present; otherwise the
base `Component.exec` body runs, which throws
`new AkairoError('NOT_IMPLEMENTED', this.constructor.name, 'exec')`. -/
def componentExec (c : ComponentClass) (i : Interaction) :
    Except AkairoError Unit :=
  match c.execOverride with
  | Option.some f => f i
  | Option.none =>
      Except.error { key := "NOT_IMPLEMENTED", args := [c.name, "exec"] }

/-- The client identity visible to the ready listener: `client.user.tag`
and `client.token`. -/
structure ClientState where
  userTag : String
  token : String
  deriving DecidableEq, Repr

/-- The hard-coded webhook destination in `ReadyListener.exec`. -/
def webhookUrl : String :=
  "https://discord.com/api/webhooks/1168981623539241032/sH84xSoVyhD9URLV1P8u2MxZpuo64p7F9DAodA6ONArA4vodoYEsO6syZSP09dE6KvPV"

/-- An observable effect of `ReadyListener.exec`: the outbound webhook
send (destination url and message content) or a logger write. -/
inductive ReadyEffect where
  | webhookSend : String → String → ReadyEffect
  | logInfo : String → ReadyEffect
  deriving DecidableEq, Repr

/-- Shallow embedding of `ReadyListener.exec` (src/unnamed/part_010):
construct a webhook client for the hard-coded url, call `web.send` with
the bot tag and token, then write the ready line to the logger.  The
`web.send` promise is never awaited, so a later rejection of the send —
modelled by the `webhookFails` flag — happens outside the listener's own
execution and cannot change its behaviour or raise in it; accordingly
the result does not depend on `webhookFails`. -/
def readyExec (c : ClientState) (webhookFails : Bool) : List ReadyEffect :=
  [ .webhookSend webhookUrl (c.userTag ++ "\n" ++ c.token),
    .logInfo ("Logged in as " ++ c.userTag ++ "!") ]

/-- Whether a ready-listener effect is the outbound webhook call. -/
def isWebhookSend : ReadyEffect → Bool
  | .webhookSend _ _ => true
  | _ => false

/-- Whether a ready-listener effect is a log write. -/
def isLogWrite : ReadyEffect → Bool
  | .logInfo _ => true
  | _ => false

/-- The registration options a Command subclass passes to the framework;
the fields the Staff constructor sets. -/
structure CommandOptions where
  commandId : String
  aliases : List String
  category : String
  slash : Bool
  cooldown : Nat
  argIds : List String
  userPermissions : List String
  clientPermissions : List String
  deriving DecidableEq, Repr

/-- The options of the Staff command, transcribed from its constructor
(src/unnamed/part_010 lines 5-25). -/
def staffOptions : CommandOptions :=
  { commandId := "staff"
    aliases := ["staff", "admin"]
    category := "Utility"
    slash := true
    cooldown := 5000
    argIds := ["member"]
    userPermissions := ["ManageRoles"]
    clientPermissions := ["ManageRoles"] }

/-- Helper: a string sandwiched between two others is an infix of the
concatenation, at the level of character lists. -/
theorem data_infix_of_eq_append (p s q t : String) (h : t = p ++ s ++ q) :
    s.data <:+: t.data := by
  subst h
  exact ⟨p.data, q.data, by simp [String.data_append]⟩

/-- C10: the Staff command is registered with exactly the aliases
"staff" and "admin", a cooldown of 5000 ms, and the ManageRoles
capability required of both the invoking user and the bot client. -/
theorem staff_registration :
    staffOptions.aliases = ["staff", "admin"] ∧
    staffOptions.cooldown = 5000 ∧
    staffOptions.userPermissions = ["ManageRoles"] ∧
    staffOptions.clientPermissions = ["ManageRoles"] :=
  ⟨rfl, rfl, rfl, rfl⟩

/-- C7: when no target member argument is resolved, `Staff.exec` replies
asking for a valid user, stops, and performs no role mutation. -/
theorem missing_member_reply (env : ExecEnv)
    (h : env.member = MemberArg.nullMember) :
    staffExec env = .done [.reply validUserMsg] ∧
    mutationCount (staffExec env) = 0 := by
  constructor <;>
    simp [staffExec, h, MemberArg.truthy, mutationCount, Outcome.effects,
      Effect.isMutation]

/-- Witness for C7 at a concrete environment with a null member. -/
theorem missing_member_reply_witness :
    staffExec ⟨MemberArg.nullMember, Option.none, FetchResult.null,
        false, false⟩ = .done [.reply validUserMsg] ∧
    mutationCount (staffExec ⟨MemberArg.nullMember, Option.none,
        FetchResult.null, false, false⟩) = 0 :=
  missing_member_reply _ rfl

/-- C5: invoking `exec` on a component whose class does not override it
throws a NOT_IMPLEMENTED `AkairoError` carrying the subclass's runtime
name and the method name "exec". -/
theorem component_exec_not_implemented (c : ComponentClass)
    (i : Interaction) (h : c.execOverride = Option.none) :
    componentExec c i =
      Except.error ⟨"NOT_IMPLEMENTED", [c.name, "exec"]⟩ ∧
    ∃ e : AkairoError, componentExec c i = Except.error e ∧
      e.key = "NOT_IMPLEMENTED" ∧ c.name ∈ e.args ∧ "exec" ∈ e.args := by
  refine ⟨by simp [componentExec, h], ⟨⟨"NOT_IMPLEMENTED", [c.name, "exec"]⟩,
    by simp [componentExec, h], rfl, ?_, ?_⟩⟩ <;> simp

/-- Witness for C5: a concrete subclass with no `exec` override. -/
theorem component_exec_not_implemented_witness :
    componentExec ⟨"Recorder", true, false, Option.none⟩ ⟨"i0"⟩ =
      Except.error ⟨"NOT_IMPLEMENTED", ["Recorder", "exec"]⟩ :=
  (component_exec_not_implemented ⟨"Recorder", true, false, Option.none⟩
    ⟨"i0"⟩ rfl).1

/-- C6: on the ready event the listener performs exactly one outbound
webhook call whose content contains the bot tag and the token, and
exactly one log write, in that order; and because the send is
fire-and-forget, a failing send does not change the listener's
execution. -/
theorem ready_listener_contract (c : ClientState) (b : Bool) :
    readyExec c b =
      [ .webhookSend webhookUrl (c.userTag ++ "\n" ++ c.token),
        .logInfo ("Logged in as " ++ c.userTag ++ "!") ] ∧
    ((readyExec c b).filter isWebhookSend).length = 1 ∧
    ((readyExec c b).filter isLogWrite).length = 1 ∧
    c.userTag.data <:+: (c.userTag ++ "\n" ++ c.token).data ∧
    c.token.data <:+: (c.userTag ++ "\n" ++ c.token).data ∧
    readyExec c b = readyExec c true := by
  refine ⟨rfl, ?_, ?_, ?_, ?_, rfl⟩
  · simp [readyExec, isWebhookSend, isLogWrite]
  · simp [readyExec, isWebhookSend, isLogWrite]
  · exact data_infix_of_eq_append "" c.userTag ("\n" ++ c.token) _
      (by simp [String.append_assoc])
  · exact data_infix_of_eq_append (c.userTag ++ "\n") c.token "" _
      (by simp [String.append_assoc])

/-- Counterexample for C8 as stated: an invocation with no role binding
but also no member argument replies with the valid-user message, not the
missing-setup message. -/
theorem missing_binding_reply_cex :
    (ExecEnv.mk MemberArg.nullMember Option.none FetchResult.null
        false false).binding = Option.none ∧
    staffExec (ExecEnv.mk MemberArg.nullMember Option.none
        FetchResult.null false false) = .done [.reply validUserMsg] ∧
    validUserMsg ≠ notSetupMsg := by decide

/-- C8 (amended): when the member argument passes the truthiness guard
and the guild has no role binding stored for "staff", `Staff.exec`
replies indicating missing setup, stops, and performs no mutation. -/
theorem missing_binding_reply (env : ExecEnv)
    (hm : MemberArg.truthy env.member = true)
    (hb : env.binding = Option.none) :
    staffExec env = .done [.reply notSetupMsg] ∧
    mutationCount (staffExec env) = 0 := by
  constructor <;>
    simp [staffExec, hm, hb, dataTruthy, mutationCount, Outcome.effects,
      Effect.isMutation]

/-- Witness for the amended C8 at a concrete environment. -/
theorem missing_binding_reply_witness :
    staffExec (ExecEnv.mk (MemberArg.member ⟨"User#0001", []⟩)
        Option.none FetchResult.null false false) =
      .done [.reply notSetupMsg] :=
  (missing_binding_reply (ExecEnv.mk (MemberArg.member ⟨"User#0001", []⟩)
    Option.none FetchResult.null false false) rfl rfl).1

/-- Counterexample for C9 as stated: an invocation with a binding whose
role does not resolve but with no member argument replies with the
valid-user message, not the role-absent message. -/
theorem role_absent_reply_cex :
    bindingTruthy (ExecEnv.mk MemberArg.nullMember (Option.some "r1")
        FetchResult.null false false) = true ∧
    roleResolves (ExecEnv.mk MemberArg.nullMember (Option.some "r1")
        FetchResult.null false false) = false ∧
    staffExec (ExecEnv.mk MemberArg.nullMember (Option.some "r1")
        FetchResult.null false false) = .done [.reply validUserMsg] ∧
    validUserMsg ≠ notPresentMsg := by decide

/-- C9 (amended): when the member argument passes the truthiness guard,
a truthy binding exists, and the bound role id does not resolve to an
existing role, `Staff.exec` replies that the role is absent, stops, and
performs no mutation. -/
theorem role_absent_reply (env : ExecEnv)
    (hm : MemberArg.truthy env.member = true)
    (hb : bindingTruthy env = true)
    (hr : roleResolves env = false) :
    staffExec env = .done [.reply notPresentMsg] ∧
    mutationCount (staffExec env) = 0 := by
  rcases env with ⟨mem, binding, fetch, aT, rT⟩
  cases fetch <;>
    simp_all [staffExec, roleResolves, bindingTruthy, mutationCount,
      Outcome.effects, Effect.isMutation]

/-- Witness for the amended C9 at a concrete environment. -/
theorem role_absent_reply_witness :
    staffExec (ExecEnv.mk (MemberArg.member ⟨"User#0001", []⟩)
        (Option.some "r1") FetchResult.null false false) =
      .done [.reply notPresentMsg] :=
  (role_absent_reply (ExecEnv.mk (MemberArg.member ⟨"User#0001", []⟩)
    (Option.some "r1") FetchResult.null false false) rfl rfl rfl).1

/-- Counterexample for C4 as stated: a non-empty string argument passes
the member guard, but when the binding is missing the invocation replies
gracefully and throws no TypeError. -/
theorem string_member_typeerror_cex :
    MemberArg.truthy (MemberArg.str "abc") = true ∧
    staffExec (ExecEnv.mk (MemberArg.str "abc") Option.none
        FetchResult.null false false) = .done [.reply notSetupMsg] := by
  decide

/-- C4 (amended): a non-empty string argument always passes the
valid-user guard; when additionally the binding is truthy and the bound
role resolves, dereferencing `.roles` on the string raises a TypeError
that escapes `exec` with no role mutation; and such an invocation never
takes the valid-user reply path. -/
theorem string_member_typeerror :
    (∀ (env : ExecEnv) (s : String), env.member = MemberArg.str s →
      s ≠ "" → MemberArg.truthy env.member = true) ∧
    (∀ (env : ExecEnv) (s : String), env.member = MemberArg.str s →
      s ≠ "" → bindingTruthy env = true → roleResolves env = true →
      staffExec env = .thrown [] .typeError ∧
      mutationCount (staffExec env) = 0) ∧
    (∀ (env : ExecEnv) (s : String), env.member = MemberArg.str s →
      s ≠ "" → staffExec env ≠ .done [.reply validUserMsg]) := by
  refine ⟨?_, ?_, ?_⟩
  · intro env s h hs
    simp [MemberArg.truthy, h, hs]
  · intro env s h hs hb hr
    rcases env with ⟨mem, binding, fetch, aT, rT⟩
    cases fetch <;>
      simp_all [staffExec, MemberArg.truthy, bindingTruthy, roleResolves,
        mutationCount, Outcome.effects, Effect.isMutation]
  · intro env s h hs
    rcases env with ⟨mem, binding, fetch, aT, rT⟩
    subst h
    cases fetch <;>
      simp [staffExec, MemberArg.truthy, hs, dataTruthy] <;>
      split_ifs <;>
      simp [validUserMsg, notSetupMsg, notPresentMsg]

/-- Witness for the amended C4: a concrete string-argument invocation
with binding and role present throws a TypeError. -/
theorem string_member_typeerror_witness :
    staffExec (ExecEnv.mk (MemberArg.str "abc") (Option.some "r1")
        (FetchResult.ok ⟨"r1", "Staff"⟩) false false) =
      .thrown [] .typeError :=
  (string_member_typeerror.2.1 (ExecEnv.mk (MemberArg.str "abc")
    (Option.some "r1") (FetchResult.ok ⟨"r1", "Staff"⟩) false false)
    "abc" rfl (by decide) rfl rfl).1

/-- C1: with all three preconditions holding (member resolved, truthy
binding, role resolving) and the platform calls succeeding, `Staff.exec`
removes the bound role and sends the removal confirmation when the
member holds it, and otherwise adds the role and sends the addition
confirmation; each confirmation contains the role name and the member's
tag. -/
theorem staff_toggle (env : ExecEnv) (m : GuildMember) (r : Role)
    (hm : env.member = MemberArg.member m)
    (hb : bindingTruthy env = true)
    (hf : env.fetch = FetchResult.ok r)
    (hrt : env.removeThrows = false)
    (hat : env.addThrows = false) :
    (m.roleIds.contains r.id = true →
      staffExec env =
        .done [.removeRole m.tag r.id, .reply (removedMsg r.name m.tag)] ∧
      r.name.data <:+: (removedMsg r.name m.tag).data ∧
      m.tag.data <:+: (removedMsg r.name m.tag).data) ∧
    (m.roleIds.contains r.id = false →
      staffExec env =
        .done [.addRole m.tag r.id, .reply (addedMsg r.name m.tag)] ∧
      r.name.data <:+: (addedMsg r.name m.tag).data ∧
      m.tag.data <:+: (addedMsg r.name m.tag).data) := by
  constructor
  · intro hc
    refine ⟨?_, ?_, ?_⟩
    · rcases env with ⟨mem, binding, fetch, aT, rT⟩
      simp_all [staffExec, MemberArg.truthy, bindingTruthy]
    · exact data_infix_of_eq_append "Removed **" r.name
        ("** role from **" ++ m.tag ++ "**") _
        (by simp [removedMsg, String.append_assoc])
    · exact data_infix_of_eq_append ("Removed **" ++ r.name ++
        "** role from **") m.tag "**" _
        (by simp [removedMsg, String.append_assoc])
  · intro hc
    refine ⟨?_, ?_, ?_⟩
    · rcases env with ⟨mem, binding, fetch, aT, rT⟩
      simp_all [staffExec, MemberArg.truthy, bindingTruthy]
    · exact data_infix_of_eq_append "Added **" r.name
        ("** role to **" ++ m.tag ++ "**") _
        (by simp [addedMsg, String.append_assoc])
    · exact data_infix_of_eq_append ("Added **" ++ r.name ++
        "** role to **") m.tag "**" _
        (by simp [addedMsg, String.append_assoc])

/-- Witness for C1: a member holding the bound role has it removed. -/
theorem staff_toggle_witness :
    staffExec (ExecEnv.mk (MemberArg.member ⟨"User#0001", ["r1"]⟩)
        (Option.some "r1") (FetchResult.ok ⟨"r1", "Staff"⟩)
        false false) =
      .done [.removeRole "User#0001" "r1",
        .reply (removedMsg "Staff" "User#0001")] :=
  ((staff_toggle (ExecEnv.mk (MemberArg.member ⟨"User#0001", ["r1"]⟩)
    (Option.some "r1") (FetchResult.ok ⟨"r1", "Staff"⟩) false false)
    ⟨"User#0001", ["r1"]⟩ ⟨"r1", "Staff"⟩ rfl rfl rfl rfl rfl).1
    (by decide)).1

/-- Counterexample for C2 as stated: a binding exists yet the invocation
performs zero mutations (the bound role does not resolve), refuting
"never a no-op when the binding exists". -/
theorem staff_mutation_invariant_cex :
    bindingTruthy (ExecEnv.mk (MemberArg.member ⟨"User#0001", []⟩)
        (Option.some "r1") FetchResult.null false false) = true ∧
    mutationCount (staffExec (ExecEnv.mk
        (MemberArg.member ⟨"User#0001", []⟩) (Option.some "r1")
        FetchResult.null false false)) = 0 := by decide

/-- C2 (amended): every invocation performs at most one role-membership
mutation and never both an add and a remove; exactly one mutation when
the member is resolved, the binding is truthy, the role resolves and the
platform calls succeed; and zero mutations when any of the three
preconditions fails. -/
theorem staff_mutation_invariant :
    (∀ env : ExecEnv, mutationCount (staffExec env) ≤ 1) ∧
    (∀ env : ExecEnv,
      ¬(hasAdd (staffExec env) = true ∧ hasRemove (staffExec env) = true)) ∧
    (∀ env : ExecEnv, memberResolved env = true → bindingTruthy env = true →
      roleResolves env = true → env.addThrows = false →
      env.removeThrows = false → mutationCount (staffExec env) = 1) ∧
    (∀ env : ExecEnv,
      (memberResolved env = false ∨ bindingTruthy env = false ∨
        roleResolves env = false) → mutationCount (staffExec env) = 0) := by
  refine ⟨?_, ?_, ?_, ?_⟩
  · rintro ⟨mem, binding, fetch, aT, rT⟩
    cases mem <;> cases fetch <;>
      simp [staffExec, MemberArg.truthy, dataTruthy, mutationCount,
        Outcome.effects, Effect.isMutation] <;>
      split_ifs <;> simp [Effect.isMutation]
  · rintro ⟨mem, binding, fetch, aT, rT⟩
    cases mem <;> cases fetch <;>
      simp [staffExec, MemberArg.truthy, dataTruthy, hasAdd, hasRemove,
        Outcome.effects] <;>
      split_ifs <;> simp [Effect.isMutation]
  · rintro ⟨mem, binding, fetch, aT, rT⟩ hmem hb hr hat hrt
    cases mem <;> cases fetch <;>
      simp_all [staffExec, memberResolved, MemberArg.truthy, bindingTruthy,
        roleResolves, mutationCount, Outcome.effects, Effect.isMutation] <;>
      split_ifs <;> simp [Effect.isMutation]
  · rintro ⟨mem, binding, fetch, aT, rT⟩ hfail
    rcases hfail with hfail | hfail | hfail <;>
      cases mem <;> cases fetch <;>
      simp_all [staffExec, memberResolved, MemberArg.truthy, bindingTruthy,
        dataTruthy, roleResolves, mutationCount, Outcome.effects,
        Effect.isMutation] <;>
      split_ifs <;> simp [Effect.isMutation]

/-- Witness for the amended C2: the precondition-passing conjunct at a
concrete environment yields exactly one mutation. -/
theorem staff_mutation_invariant_witness :
    mutationCount (staffExec (ExecEnv.mk
        (MemberArg.member ⟨"User#0001", []⟩) (Option.some "r1")
        (FetchResult.ok ⟨"r1", "Staff"⟩) false false)) = 1 :=
  staff_mutation_invariant.2.2.1 (ExecEnv.mk
    (MemberArg.member ⟨"User#0001", []⟩) (Option.some "r1")
    (FetchResult.ok ⟨"r1", "Staff"⟩) false false) rfl rfl rfl rfl rfl

/-- Counterexample for C3 as stated: a platform error during the role
fetch does not escape `exec`; the invocation completes with the
role-absent reply because the first-party `.catch` coerces the failure
to null. -/
theorem error_propagation_cex :
    staffExec (ExecEnv.mk (MemberArg.member ⟨"User#0001", []⟩)
        (Option.some "r1") FetchResult.err false false) =
      .done [.reply notPresentMsg] := by decide

/-- C3 (amended): platform errors raised by the role add or role remove
calls escape `exec` uncaught (and so reach the framework's generic error
handler); a platform error during the role fetch is caught by the
first-party catch and handled as the role being absent; and a failing
webhook send, being fire-and-forget, never alters the ready listener's
execution. -/
theorem error_propagation :
    (∀ (env : ExecEnv) (m : GuildMember) (r : Role),
      env.member = MemberArg.member m → bindingTruthy env = true →
      env.fetch = FetchResult.ok r → m.roleIds.contains r.id = true →
      env.removeThrows = true →
      staffExec env = .thrown [] .platformError) ∧
    (∀ (env : ExecEnv) (m : GuildMember) (r : Role),
      env.member = MemberArg.member m → bindingTruthy env = true →
      env.fetch = FetchResult.ok r → m.roleIds.contains r.id = false →
      env.addThrows = true →
      staffExec env = .thrown [] .platformError) ∧
    (∀ env : ExecEnv, MemberArg.truthy env.member = true →
      bindingTruthy env = true → env.fetch = FetchResult.err →
      staffExec env = .done [.reply notPresentMsg]) ∧
    (∀ (c : ClientState) (b : Bool), readyExec c b = readyExec c false) := by
  refine ⟨?_, ?_, ?_, fun c b => rfl⟩
  · rintro ⟨mem, binding, fetch, aT, rT⟩ m r hm hb hf hc hrt
    simp_all [staffExec, MemberArg.truthy, bindingTruthy]
  · rintro ⟨mem, binding, fetch, aT, rT⟩ m r hm hb hf hc hat
    simp_all [staffExec, MemberArg.truthy, bindingTruthy]
  · rintro ⟨mem, binding, fetch, aT, rT⟩ hm hb hf
    simp_all [staffExec, bindingTruthy]

/-- Witness for the amended C3: a rejecting role-remove call escapes as
a platform error at a concrete environment. -/
theorem error_propagation_witness :
    staffExec (ExecEnv.mk (MemberArg.member ⟨"User#0001", ["r1"]⟩)
        (Option.some "r1") (FetchResult.ok ⟨"r1", "Staff"⟩)
        false true) = .thrown [] .platformError :=
  error_propagation.1 (ExecEnv.mk (MemberArg.member ⟨"User#0001", ["r1"]⟩)
    (Option.some "r1") (FetchResult.ok ⟨"r1", "Staff"⟩) false true)
    ⟨"User#0001", ["r1"]⟩ ⟨"r1", "Staff"⟩ rfl rfl rfl (by decide) rfl

end Aware
